import Mathlib

/-!
Shallow embedding of the order-up service: the storage layer (db.go) and the
HTTP handlers of the api package (getOrders, postOrders, chargeOrder,
cancelOrder, fulFillOrder), together with theorems settling the frozen claims.

Handlers are modelled as pure functions from the repository contents and the
outcomes of collaborator calls (charge gateway, fulfillment gateway, storage
writes) to an HTTP-level response plus a trace of outbound effects (gateway
calls and repository writes). The trace lets us state which calls a handler
issues and in which order.
-/

/-- Modelled from the spec: the OrderStatus enum of the storage package (its
defining file is not part of the sources here). Four real statuses; the spec
fixes the lifecycle Pending, Charged, Fulfilled, Cancelled. -/
inductive OrderStatus where
  | pending
  | charged
  | fulfilled
  | cancelled
deriving DecidableEq, Repr

/-- Modelled from the spec: statuses are serialized as small integer codes
(README shows pending as 0 and charged as 1); the query sentinel -1 is distinct
from every real status code. -/
def statusCode : OrderStatus → Int
  | .pending => 0
  | .charged => 1
  | .fulfilled => 2
  | .cancelled => 3

/-- Modelled from the spec: a LineItem of the storage package, one priced,
quantified entry within an order; price and quantity are signed integers. -/
structure LineItem where
  description : String
  priceCents : Int
  quantity : Int
deriving DecidableEq, Repr

/-- Modelled from the spec: an Order of the storage package. -/
structure Order where
  id : String
  customerEmail : String
  lineItems : List LineItem
  status : OrderStatus
deriving DecidableEq, Repr

/-- Modelled from the spec: the computed total of an order, the sum of
priceCents times quantity over the line items, never stored independently. -/
def Order.TotalCents (o : Order) : Int :=
  (o.lineItems.map (fun li => li.priceCents * li.quantity)).sum

/-- Storage-level errors: ErrOrderNotFound, ErrOrderExists, and the generic
wrapped errors the storage functions produce. -/
inductive StorErr where
  | orderNotFound
  | orderExists
  | other (msg : String)
deriving DecidableEq, Repr

/-- The repository contents: the collection of persisted orders. -/
def DB := List Order

/-- Decidable equality for results of fallible storage calls. -/
instance {ε α : Type} [DecidableEq ε] [DecidableEq α] : DecidableEq (Except ε α) := fun x y =>
  match x, y with
  | .error e, .error f =>
    if h : e = f then .isTrue (congrArg Except.error h)
    else .isFalse (fun hc => h (Except.error.inj hc))
  | .error _, .ok _ => .isFalse (fun hc => Except.noConfusion hc)
  | .ok _, .error _ => .isFalse (fun hc => Except.noConfusion hc)
  | .ok a, .ok b =>
    if h : a = b then .isTrue (congrArg Except.ok h)
    else .isFalse (fun hc => h (Except.ok.inj hc))

/-- GetOrder of storage/db.go: with a nonempty id it looks the order up and
returns ErrOrderNotFound when no document matches; with an empty id it falls
through to the generic unimplemented error. -/
def GetOrder (db : List Order) (id : String) : Except StorErr Order :=
  if id ≠ "" then
    match db.find? (fun o => o.id = id) with
    | some o => .ok o
    | none => .error .orderNotFound
  else
    .error (.other "unimplemented")

/-- Go slices are nil by default; a slice built by appending matches into an
initially nil slice is nil exactly when nothing was appended. none models the
nil slice, some l a non-nil slice with elements l. -/
def nilSliceOf (l : List α) : Option (List α) :=
  match l with
  | [] => none
  | l => some l

/-- Elements of a possibly nil Go slice. -/
def sliceToList (s : Option (List α)) : List α :=
  s.getD []

/-- GetOrders of storage/db.go: with the -1 sentinel it returns every order;
otherwise it returns the orders whose status field equals the given status
code. The result slice is nil when nothing matched. -/
def GetOrders (db : List Order) (status : Int) : Except StorErr (Option (List Order)) :=
  if status = -1 then
    .ok (nilSliceOf db)
  else
    .ok (nilSliceOf (db.filter (fun o => statusCode o.status == status)))

/-- SetOrderStatus of storage/db.go as written: with a nonempty id it looks the
document up; when the document exists it returns ErrOrderExists, when it does
not exist it prints and falls through to return nil. It never updates any
document, so the resulting repository contents are returned unchanged in every
branch. -/
def SetOrderStatus (db : List Order) (id : String) (status : OrderStatus) :
    Except StorErr (List Order) :=
  if id ≠ "" then
    match db.find? (fun o => o.id = id) with
    | some _ => .error .orderExists
    | none => .ok db
  else
    .ok db

/-- An outbound effect issued by a handler: a charge-gateway call, a
fulfillment-gateway call, or a repository write. -/
inductive Effect where
  | chargeCall (cardToken : String) (amountCents : Int)
  | fulfillCall (orderID : String) (description : String) (quantity : Int)
  | setStatus (id : String) (status : OrderStatus)
  | insertOrder (o : Order)
deriving DecidableEq, Repr

/-- Modelled from the spec: the repository contract of section 4.1 interpreting
a write effect on the repository contents. SetStatus updates the status field
of the matching order; Create appends; gateway calls do not touch the
repository. Used to state that a handler leaves persisted state unchanged. -/
def applyEffect (db : List Order) : Effect → List Order
  | .setStatus id st => db.map (fun o => if o.id = id then { o with status := st } else o)
  | .insertOrder o => db ++ [o]
  | .chargeCall _ _ => db
  | .fulfillCall _ _ _ => db

/-- Fold a trace of effects over the repository contents. -/
def applyEffects (db : List Order) (effs : List Effect) : List Order :=
  effs.foldl applyEffect db

/-- HTTP-level response payloads produced by the handlers. -/
inductive Payload where
  | err (msg : String)
  | ordersList (orders : Option (List Order))
  | order (o : Order)
  | created (o : Order)
  | charged (chargedCents : Int)
  | cancelled (orderStatus : String) (chargedCents : Int)
  | fulfilled (flag : String)
deriving DecidableEq, Repr

/-- An HTTP response: status code plus JSON payload. -/
structure Resp where
  code : Nat
  payload : Payload
deriving DecidableEq, Repr

/-- Parsing of the optional status query parameter in the getOrders handler:
pending, charged and fulfilled map to their codes, the empty string maps to the
-1 sentinel, and anything else (there is no case for cancelled) is rejected. -/
def statusOfQuery : String → Option Int
  | "pending" => some 0
  | "charged" => some 1
  | "fulfilled" => some 2
  | "" => some (-1)
  | _ => none

/-- The getOrders handler of the api package: parses the status query, asks the
storage for the orders, substitutes an empty slice for a nil result, and
responds 200 with the orders. -/
def getOrders (db : List Order) (q : String) : Resp :=
  match statusOfQuery q with
  | none => ⟨400, .err "unknown value for status: %v"⟩
  | some status =>
    match GetOrders db status with
    | .error _ => ⟨500, .err "error getting orders"⟩
    | .ok orders =>
      match orders with
      | none => ⟨200, .ordersList (some [])⟩
      | some l => ⟨200, .ordersList (some l)⟩

/-- The body of the POST /orders handler. -/
structure PostOrderArgs where
  customerEmail : String
  lineItems : List LineItem
deriving DecidableEq, Repr

/-- The postOrders handler of the api package, including its control flow as
written: the branch for a negative total writes the 400 response but does not
return, so execution continues into the InsertOrder call and, on success, a
second response write. The handler therefore returns a list of response writes
(gin appends successive writes to one underlying response). insertResult is
the outcome of the InsertOrder call on the storage collaborator. -/
def postOrders (args : PostOrderArgs) (insertResult : Except StorErr String) :
    List Resp × List Effect :=
  if !(args.customerEmail.data.contains '@') then
    ([⟨400, .err "invalid customerEmail"⟩], [])
  else if args.lineItems.length < 1 then
    ([⟨400, .err "an order must contain at least one line item"⟩], [])
  else
    let order : Order :=
      { id := "", customerEmail := args.customerEmail
        lineItems := args.lineItems, status := .pending }
    let pre : List Resp :=
      if order.TotalCents < 0 then
        [⟨400, .err "an order total cannot be less than 0"⟩]
      else []
    match insertResult with
    | .error .orderExists => (pre ++ [⟨409, .err "order already exists"⟩], [.insertOrder order])
    | .error _ => (pre ++ [⟨500, .err "error inserting order"⟩], [.insertOrder order])
    | .ok newId => (pre ++ [⟨201, .created { order with id := newId }⟩], [.insertOrder order])

/-- Tail of the chargeOrder handler after the optional gateway call: the
SetOrderStatus call on the storage collaborator (whose outcome is ssr) followed
by the success response carrying the charged amount. -/
def chargeFinish (order : Order) (effs : List Effect) (ssr : Except StorErr Unit) :
    Resp × List Effect :=
  match ssr with
  | .error _ =>
    (⟨500, .err "error updating order to charged"⟩, effs ++ [.setStatus order.id .charged])
  | .ok _ =>
    (⟨200, .charged order.TotalCents⟩, effs ++ [.setStatus order.id .charged])

/-- The chargeOrder handler of the api package: loads the order (404 for
ErrOrderNotFound, 500 otherwise), rejects Charged and Fulfilled orders with
409, calls the charge gateway for a non-zero total (chargeOk is the outcome of
that call), then writes status Charged and returns the amount. -/
def chargeOrder (db : List Order) (id : String) (cardToken : String) (chargeOk : Bool)
    (ssr : Except StorErr Unit) : Resp × List Effect :=
  match GetOrder db id with
  | .error .orderNotFound => (⟨404, .err "not found"⟩, [])
  | .error _ => (⟨500, .err "error getting order"⟩, [])
  | .ok order =>
    if order.status = .charged ∨ order.status = .fulfilled then
      (⟨409, .err "order ineligible for charging"⟩, [])
    else if order.TotalCents ≠ 0 then
      if chargeOk then
        chargeFinish order [.chargeCall cardToken order.TotalCents] ssr
      else
        (⟨500, .err "error making charge request"⟩, [.chargeCall cardToken order.TotalCents])
    else
      chargeFinish order [] ssr

/-- The refundLineItems helper of the api package: sums priceCents times
quantity over the line items and issues one charge-gateway call for the
negated total; on success it returns the negated total. -/
def refundLineItems (lineItems : List LineItem) (cardToken : String) (chargeOk : Bool) :
    Except String Int × List Effect :=
  let totalRefund := (lineItems.map (fun li => li.priceCents * li.quantity)).sum
  if chargeOk then
    (.ok (-totalRefund), [.chargeCall cardToken (-totalRefund)])
  else
    (.error "error making charge request", [.chargeCall cardToken (-totalRefund)])

/-- The cancelOrder handler of the api package as written: every GetOrder
failure is mapped to 500; a Charged order is refunded and written Cancelled; a
Fulfilled order is rejected with 409; any other status falls through directly
to the success response with a zero refund and no repository write. -/
def cancelOrder (db : List Order) (id : String) (cardToken : String) (chargeOk : Bool)
    (ssr : Except StorErr Unit) : Resp × List Effect :=
  match GetOrder db id with
  | .error _ => (⟨500, .err "error getting order"⟩, [])
  | .ok order =>
    if order.status = .charged then
      match refundLineItems order.lineItems cardToken chargeOk with
      | (.error _, effs) => (⟨500, .err "error refunding line items"⟩, effs)
      | (.ok refundAmt, effs) =>
        match ssr with
        | .error _ => (⟨500, .err "error cancelling order"⟩, effs ++ [.setStatus id .cancelled])
        | .ok _ =>
          (⟨200, .cancelled "cancelled" refundAmt⟩, effs ++ [.setStatus id .cancelled])
    else if order.status = .fulfilled then
      (⟨409, .err "order has already been fulfilled"⟩, [])
    else
      (⟨200, .cancelled "cancelled" 0⟩, [])

/-- The loop body of fulfillOrders: one fulfillment-gateway call per line item,
in list order, short-circuiting on the first failed call. fok k is the outcome
of the k-th gateway call overall; the loop starts at call index k. -/
def fulfillLoop (orderID : String) (items : List LineItem) (fok : Nat → Bool) (k : Nat) :
    Except String Bool × List Effect :=
  match items with
  | [] => (.ok true, [])
  | item :: rest =>
    if fok k then
      let r := fulfillLoop orderID rest fok (k + 1)
      (r.1, .fulfillCall orderID item.description item.quantity :: r.2)
    else
      (.error "error making fulfillment request",
       [.fulfillCall orderID item.description item.quantity])

/-- The fulfillOrders helper of the api package: fulfills every line item in
order, returning true when the loop reaches the end. -/
def fulfillOrders (orderID : String) (items : List LineItem) (fok : Nat → Bool) :
    Except String Bool × List Effect :=
  fulfillLoop orderID items fok 0

/-- The expected trace of fulfillment-gateway calls for a list of line items. -/
def fulfillTrace (orderID : String) (items : List LineItem) : List Effect :=
  items.map (fun item => .fulfillCall orderID item.description item.quantity)

/-- The fulFillOrder handler of the api package as written: every GetOrder
failure is mapped to 500; a non-Charged order is rejected with 400; otherwise
every line item is fulfilled in order, the first failure is surfaced as 500
with no repository write, and on full success status Fulfilled is written and
the handler responds 200. -/
def fulFillOrder (db : List Order) (id : String) (fok : Nat → Bool)
    (ssr : Except StorErr Unit) : Resp × List Effect :=
  match GetOrder db id with
  | .error _ => (⟨500, .err "error getting order"⟩, [])
  | .ok order =>
    if order.status ≠ .charged then
      (⟨400, .err "order cannot be fulfilled, order has not been charged"⟩, [])
    else
      match fulfillOrders id order.lineItems fok with
      | (.error _, effs) => (⟨500, .err "error fulfilling line items"⟩, effs)
      | (.ok allFulfilled, effs) =>
        if allFulfilled then
          match ssr with
          | .error _ =>
            (⟨500, .err "error updating order to fulfilled"⟩, effs ++ [.setStatus id .fulfilled])
          | .ok _ => (⟨200, .fulfilled "true"⟩, effs ++ [.setStatus id .fulfilled])
        else
          (⟨200, .fulfilled "true"⟩, effs)

/-- The orders slice carried by a successful GetOrders call; none models the
nil slice the handler has to replace before responding. -/
def ordersOf (db : List Order) (s : Int) : Option (List Order) :=
  match GetOrders db s with
  | .ok r => r
  | .error _ => none

/-! ## Helper lemmas -/

theorem sliceToList_nilSliceOf (l : List Order) : sliceToList (nilSliceOf l) = l := by
  cases l <;> rfl

theorem statusCode_ne_negone (s : OrderStatus) : statusCode s ≠ -1 := by
  cases s <;> decide

theorem statusCode_beq (a s : OrderStatus) : (statusCode a == statusCode s) = (a == s) := by
  cases a <;> cases s <;> rfl

theorem filter_statusCode (db : List Order) (s : OrderStatus) :
    db.filter (fun o => statusCode o.status == statusCode s) =
      db.filter (fun o => o.status == s) := by
  simp only [statusCode_beq]

theorem GetOrder_absent (db : List Order) (id : String)
    (h : db.find? (fun o => o.id = id) = none) :
    ∃ e, GetOrder db id = .error e := by
  by_cases hid : id = ""
  · exact ⟨.other "unimplemented", by simp [GetOrder, hid]⟩
  · exact ⟨.orderNotFound, by simp [GetOrder, hid, h]⟩

theorem fulfillLoop_all_ok (orderID : String) (items : List LineItem) (fok : Nat → Bool)
    (k : Nat) (h : ∀ m, m < items.length → fok (k + m) = true) :
    fulfillLoop orderID items fok k = (.ok true, fulfillTrace orderID items) := by
  induction items generalizing k with
  | nil => rfl
  | cons item rest ih =>
    have h0 : fok k = true := by simpa using h 0 (by simp)
    have hrest : ∀ m, m < rest.length → fok (k + 1 + m) = true := by
      intro m hm
      have := h (m + 1) (by simpa using Nat.succ_lt_succ hm)
      simpa [Nat.add_assoc, Nat.add_comm 1 m] using this
    simp [fulfillLoop, h0, ih (k + 1) hrest, fulfillTrace]

theorem fulfillLoop_first_fail (orderID : String) (items : List LineItem) (fok : Nat → Bool)
    (k j : Nat) (hj : j < items.length) (hok : ∀ m, m < j → fok (k + m) = true)
    (hfail : fok (k + j) = false) :
    fulfillLoop orderID items fok k =
      (.error "error making fulfillment request", fulfillTrace orderID (items.take (j + 1))) := by
  induction items generalizing k j with
  | nil => simp at hj
  | cons item rest ih =>
    cases j with
    | zero =>
      have h0 : fok k = false := by simpa using hfail
      simp [fulfillLoop, h0, fulfillTrace]
    | succ m =>
      have h0 : fok k = true := by simpa using hok 0 (Nat.succ_pos m)
      have hm : m < rest.length := by simpa using Nat.lt_of_succ_lt_succ hj
      have hok2 : ∀ i, i < m → fok (k + 1 + i) = true := by
        intro i hi
        have := hok (i + 1) (Nat.succ_lt_succ hi)
        simpa [Nat.add_assoc, Nat.add_comm 1 i] using this
      have hfail2 : fok (k + 1 + m) = false := by
        simpa [Nat.add_assoc, Nat.add_comm 1 m] using hfail
      simp [fulfillLoop, h0, ih (k + 1) m hm hok2 hfail2, fulfillTrace]

theorem applyEffects_fulfillTrace (orderID : String) (items : List LineItem) :
    ∀ db : List Order, applyEffects db (fulfillTrace orderID items) = db := by
  induction items with
  | nil => intro db; rfl
  | cons item rest ih =>
    intro db
    simpa [fulfillTrace, applyEffects, applyEffect] using ih db

/-! ## Claim theorems -/

/-- C1: the claim says a create request with a negative computed total fails
with ValidationError and performs no repository write. The code writes the 400
response but is missing a return, so it still calls InsertOrder (and on insert
success appends a 201 response): on the concrete failing input below the
InsertOrder effect is issued. The email and empty-line-items preconditions do
return early; the negative-total one does not. -/
theorem postOrders_negative_total_still_inserts :
    postOrders ⟨"a@b", [⟨"item", -100, 1⟩]⟩ (.ok "id9") =
      ([⟨400, .err "an order total cannot be less than 0"⟩,
        ⟨201, .created ⟨"id9", "a@b", [⟨"item", -100, 1⟩], .pending⟩⟩],
       [.insertOrder ⟨"", "a@b", [⟨"item", -100, 1⟩], .pending⟩]) ∧
    postOrders ⟨"nodomain", [⟨"item", 100, 1⟩]⟩ (.ok "id9") =
      ([⟨400, .err "invalid customerEmail"⟩], []) ∧
    postOrders ⟨"a@b", []⟩ (.ok "id9") =
      ([⟨400, .err "an order must contain at least one line item"⟩], []) := by
  decide

/-- C2: the claim says Cancel on a Pending order writes status Cancelled to the
repository. On a concrete Pending order the handler issues no effect at all
(the Pending case falls through to the success response), so the persisted
status remains Pending even though the response body says cancelled with zero
refund. -/
theorem cancelOrder_pending_no_status_write :
    cancelOrder [⟨"o1", "a@b", [⟨"x", 500, 2⟩], .pending⟩] "o1" "tok" true (.ok ()) =
      (⟨200, .cancelled "cancelled" 0⟩, []) ∧
    applyEffects [⟨"o1", "a@b", [⟨"x", 500, 2⟩], .pending⟩]
        (cancelOrder [⟨"o1", "a@b", [⟨"x", 500, 2⟩], .pending⟩] "o1" "tok" true (.ok ())).2 =
      [⟨"o1", "a@b", [⟨"x", 500, 2⟩], .pending⟩] := by
  decide

/-- C3: the claim (and the function doc comment and TestSetOrderStatus in
db_test.go) says SetOrderStatus fails with ErrOrderNotFound for an absent id
and updates the status for a present id. The code as written returns nil (a
success, with no update) for an absent id and ErrOrderExists for a present id,
evaluated here at the inputs of its own test. -/
theorem SetOrderStatus_no_notfound_no_update :
    SetOrderStatus [⟨"test1", "t@t", [], .charged⟩] "not found" .fulfilled =
      .ok [⟨"test1", "t@t", [], .charged⟩] ∧
    SetOrderStatus [⟨"test1", "t@t", [], .charged⟩] "test1" .fulfilled =
      .error .orderExists := by
  decide

/-- C4 counterexample: on an id absent from the repository, cancelOrder and
fulFillOrder respond with the generic 500 internal error, not with the 404
NotFound response the claim requires (chargeOrder and getOrder do distinguish;
these two handlers do not). -/
theorem cancel_fulfill_absent_id_counterexample :
    (cancelOrder [] "missing" "tok" true (.ok ())).1 = ⟨500, .err "error getting order"⟩ ∧
    (fulFillOrder [] "missing" (fun _ => true) (.ok ())).1 = ⟨500, .err "error getting order"⟩ ∧
    (⟨500, Payload.err "error getting order"⟩ : Resp) ≠ ⟨404, .err "not found"⟩ := by
  decide

/-- C4 amended: for every order id absent from the repository, both Cancel and
Fulfill fail with the generic internal error (HTTP 500), not a distinguished
NotFound response, issuing no gateway call and no state write. -/
theorem cancel_fulfill_absent_id_internal (db : List Order) (id tok : String) (ck : Bool)
    (fok : Nat → Bool) (ssr : Except StorErr Unit)
    (h : db.find? (fun o => o.id = id) = none) :
    cancelOrder db id tok ck ssr = (⟨500, .err "error getting order"⟩, []) ∧
    fulFillOrder db id fok ssr = (⟨500, .err "error getting order"⟩, []) := by
  obtain ⟨e, he⟩ := GetOrder_absent db id h
  constructor
  · unfold cancelOrder
    rw [he]
  · unfold fulFillOrder
    rw [he]

/-- C4 witness: the amended statement at the empty repository and id x. -/
theorem cancel_fulfill_absent_id_internal_witness :
    cancelOrder [] "x" "tok" true (.ok ()) = (⟨500, .err "error getting order"⟩, []) ∧
    fulFillOrder [] "x" (fun _ => true) (.ok ()) = (⟨500, .err "error getting order"⟩, []) :=
  cancel_fulfill_absent_id_internal [] "x" "tok" true (fun _ => true) (.ok ()) (by decide)

/-- C5: the claim says Charge on a Pending order with total exactly zero skips
the gateway call but still writes Charged and returns zero, while a non-zero
total (including a negative one) triggers exactly one gateway call for that
amount before the Charged write and is returned. Stated over the effect trace:
the zero case issues only the status write (for any gateway outcome), the
non-zero case (under gateway and write success) issues exactly the one charge
call followed by the status write. -/
theorem chargeOrder_pending_spec (db : List Order) (id tok : String) (o : Order)
    (h : GetOrder db id = .ok o) (hp : o.status = .pending) :
    (o.TotalCents = 0 → ∀ ck : Bool,
      chargeOrder db id tok ck (.ok ()) =
        (⟨200, .charged 0⟩, [.setStatus o.id .charged])) ∧
    (o.TotalCents ≠ 0 →
      chargeOrder db id tok true (.ok ()) =
        (⟨200, .charged o.TotalCents⟩,
         [.chargeCall tok o.TotalCents, .setStatus o.id .charged])) := by
  have hnc : ¬(o.status = .charged ∨ o.status = .fulfilled) := by
    rw [hp]; decide
  constructor
  · intro hz ck
    unfold chargeOrder
    rw [h]
    simp [if_neg hnc, chargeFinish, hz]
  · intro hnz
    unfold chargeOrder
    rw [h]
    simp only [if_neg hnc, if_pos hnz]
    simp [chargeFinish]

/-- C5 witness: a Pending order with zero total (price 0, quantity 5) is
charged without a gateway call even when the gateway would fail, and a Pending
order with total 5300 triggers one gateway call for 5300. -/
theorem chargeOrder_pending_spec_witness :
    chargeOrder [⟨"z1", "a@b", [⟨"i", 0, 5⟩], .pending⟩] "z1" "tok" false (.ok ()) =
      (⟨200, .charged 0⟩, [.setStatus "z1" .charged]) ∧
    chargeOrder [⟨"z2", "a@b", [⟨"i", 2650, 2⟩], .pending⟩] "z2" "tok" true (.ok ()) =
      (⟨200, .charged 5300⟩, [.chargeCall "tok" 5300, .setStatus "z2" .charged]) := by
  constructor
  · exact (chargeOrder_pending_spec [⟨"z1", "a@b", [⟨"i", 0, 5⟩], .pending⟩] "z1" "tok"
      ⟨"z1", "a@b", [⟨"i", 0, 5⟩], .pending⟩ (by decide) (by decide)).1 (by decide) false
  · exact ((chargeOrder_pending_spec [⟨"z2", "a@b", [⟨"i", 2650, 2⟩], .pending⟩] "z2" "tok"
      ⟨"z2", "a@b", [⟨"i", 2650, 2⟩], .pending⟩ (by decide) (by decide)).2 (by decide)).trans
      (by decide)

/-- C6: the claim says a failed gateway call on charging a Pending order
surfaces the error with no status write, leaving the persisted order Pending.
With the gateway outcome false the handler responds 500, the trace holds only
the charge call, and replaying the trace on the repository leaves it unchanged,
so the order still loads with its Pending status. -/
theorem chargeOrder_gateway_failure_atomic (db : List Order) (id tok : String) (o : Order)
    (ssr : Except StorErr Unit) (h : GetOrder db id = .ok o) (hp : o.status = .pending)
    (hnz : o.TotalCents ≠ 0) :
    chargeOrder db id tok false ssr =
      (⟨500, .err "error making charge request"⟩, [.chargeCall tok o.TotalCents]) ∧
    applyEffects db (chargeOrder db id tok false ssr).2 = db ∧
    GetOrder (applyEffects db (chargeOrder db id tok false ssr).2) id = .ok o := by
  have hnc : ¬(o.status = .charged ∨ o.status = .fulfilled) := by
    rw [hp]; decide
  have h1 : chargeOrder db id tok false ssr =
      (⟨500, .err "error making charge request"⟩, [.chargeCall tok o.TotalCents]) := by
    unfold chargeOrder
    rw [h]
    simp [if_neg hnc, if_pos hnz]
  refine ⟨h1, ?_, ?_⟩
  · rw [h1]; rfl
  · rw [h1]
    simpa [applyEffects, applyEffect] using h

/-- C6 witness: the theorem at a Pending order with total 5300 and a failing
gateway. -/
theorem chargeOrder_gateway_failure_atomic_witness :
    chargeOrder [⟨"z2", "a@b", [⟨"i", 2650, 2⟩], .pending⟩] "z2" "tok" false (.ok ()) =
      (⟨500, .err "error making charge request"⟩, [.chargeCall "tok" 5300]) ∧
    GetOrder (applyEffects [⟨"z2", "a@b", [⟨"i", 2650, 2⟩], .pending⟩]
        (chargeOrder [⟨"z2", "a@b", [⟨"i", 2650, 2⟩], .pending⟩] "z2" "tok" false (.ok ())).2)
        "z2" = .ok ⟨"z2", "a@b", [⟨"i", 2650, 2⟩], .pending⟩ := by
  have h := chargeOrder_gateway_failure_atomic [⟨"z2", "a@b", [⟨"i", 2650, 2⟩], .pending⟩]
    "z2" "tok" ⟨"z2", "a@b", [⟨"i", 2650, 2⟩], .pending⟩ (.ok ())
    (by decide) (by decide) (by decide)
  exact ⟨h.1.trans (by decide), h.2.2⟩

/-- C7: the claim says Charge on a Charged or Fulfilled order fails with
Conflict (409) and issues no gateway call and no state write: the handler
returns the 409 response with an empty effect trace. -/
theorem chargeOrder_conflict (db : List Order) (id tok : String) (ck : Bool)
    (ssr : Except StorErr Unit) (o : Order) (h : GetOrder db id = .ok o)
    (hst : o.status = .charged ∨ o.status = .fulfilled) :
    chargeOrder db id tok ck ssr = (⟨409, .err "order ineligible for charging"⟩, []) := by
  unfold chargeOrder
  rw [h]
  simp [if_pos hst]

/-- C7 witness: the theorem at a Charged order and at a Fulfilled order. -/
theorem chargeOrder_conflict_witness :
    chargeOrder [⟨"c1", "a@b", [⟨"i", 5, 5⟩], .charged⟩] "c1" "tok" true (.ok ()) =
      (⟨409, .err "order ineligible for charging"⟩, []) ∧
    chargeOrder [⟨"c2", "a@b", [⟨"i", 5, 5⟩], .fulfilled⟩] "c2" "tok" true (.ok ()) =
      (⟨409, .err "order ineligible for charging"⟩, []) :=
  ⟨chargeOrder_conflict [⟨"c1", "a@b", [⟨"i", 5, 5⟩], .charged⟩] "c1" "tok" true (.ok ())
      ⟨"c1", "a@b", [⟨"i", 5, 5⟩], .charged⟩ (by decide) (.inl (by decide)),
   chargeOrder_conflict [⟨"c2", "a@b", [⟨"i", 5, 5⟩], .fulfilled⟩] "c2" "tok" true (.ok ())
      ⟨"c2", "a@b", [⟨"i", 5, 5⟩], .fulfilled⟩ (by decide) (.inr (by decide))⟩

/-- C8: the claim says Fulfill on a Charged order issues one fulfillment call
per line item in list order; on full success it writes status Fulfilled and
responds fulfilled true; a failing call short-circuits (no calls for later
items), surfaces the error with no state write, and the persisted status
remains Charged. -/
theorem fulFillOrder_charged_spec (db : List Order) (id : String) (o : Order)
    (fok : Nat → Bool) (ssr : Except StorErr Unit)
    (h : GetOrder db id = .ok o) (hst : o.status = .charged) :
    ((∀ m, m < o.lineItems.length → fok m = true) →
      fulFillOrder db id fok (.ok ()) =
        (⟨200, .fulfilled "true"⟩,
         fulfillTrace id o.lineItems ++ [.setStatus id .fulfilled])) ∧
    (∀ j, j < o.lineItems.length → (∀ m, m < j → fok m = true) → fok j = false →
      fulFillOrder db id fok ssr =
        (⟨500, .err "error fulfilling line items"⟩,
         fulfillTrace id (o.lineItems.take (j + 1))) ∧
      GetOrder (applyEffects db (fulFillOrder db id fok ssr).2) id = .ok o) := by
  have hnn : ¬(o.status ≠ .charged) := by rw [hst]; simp
  constructor
  · intro hall
    have hloop := fulfillLoop_all_ok id o.lineItems fok 0
      (fun m hm => by simpa using hall m hm)
    unfold fulFillOrder
    rw [h]
    simp [if_neg hnn, fulfillOrders, hloop]
  · intro j hj hok hfail
    have hloop := fulfillLoop_first_fail id o.lineItems fok 0 j hj
      (fun m hm => by simpa using hok m hm) (by simpa using hfail)
    have h1 : fulFillOrder db id fok ssr =
        (⟨500, .err "error fulfilling line items"⟩,
         fulfillTrace id (o.lineItems.take (j + 1))) := by
      unfold fulFillOrder
      rw [h]
      simp [if_neg hnn, fulfillOrders, hloop]
    refine ⟨h1, ?_⟩
    rw [h1, applyEffects_fulfillTrace id _ db]
    exact h

/-- C8 witness: a Charged order with two line items, every fulfillment call
succeeding: two calls in line-item order followed by the Fulfilled write. -/
theorem fulFillOrder_charged_spec_witness :
    fulFillOrder [⟨"f1", "a@b", [⟨"a", 1000, 1⟩, ⟨"b", 5000, 10⟩], .charged⟩] "f1"
        (fun _ => true) (.ok ()) =
      (⟨200, .fulfilled "true"⟩,
       [.fulfillCall "f1" "a" 1, .fulfillCall "f1" "b" 10, .setStatus "f1" .fulfilled]) := by
  have h := (fulFillOrder_charged_spec
    [⟨"f1", "a@b", [⟨"a", 1000, 1⟩, ⟨"b", 5000, 10⟩], .charged⟩] "f1"
    ⟨"f1", "a@b", [⟨"a", 1000, 1⟩, ⟨"b", 5000, 10⟩], .charged⟩ (fun _ => true) (.ok ())
    (by decide) (by decide)).1 (fun m _ => rfl)
  exact h.trans (by decide)

/-- C9: the claim says List with any real status filter succeeds and returns
exactly the orders having that status (possibly empty), never an error, and
List with the -1 sentinel returns every order. GetOrders returns ok in both
cases; the filtered slice holds exactly the orders whose status matches, and
the sentinel slice holds the whole repository. -/
theorem GetOrders_filter_spec (db : List Order) (s : OrderStatus) :
    GetOrders db (statusCode s) = .ok (nilSliceOf (db.filter (fun o => o.status == s))) ∧
    sliceToList (nilSliceOf (db.filter (fun o => o.status == s))) =
      db.filter (fun o => o.status == s) ∧
    GetOrders db (-1) = .ok (nilSliceOf db) ∧
    sliceToList (nilSliceOf db) = db := by
  refine ⟨?_, sliceToList_nilSliceOf _, ?_, sliceToList_nilSliceOf _⟩
  · unfold GetOrders
    rw [if_neg (statusCode_ne_negone s), filter_statusCode]
  · unfold GetOrders
    rw [if_pos rfl]

/-- C10: the claim says a successful GET /orders response always carries a
list, never null: for every repository and recognized status query the handler
responds 200 with some list in the orders field, the elements of the slice the
storage returned, substituting the empty list when the storage slice is nil. -/
theorem getOrders_never_null (db : List Order) (q : String) (s : Int)
    (h : statusOfQuery q = some s) :
    getOrders db q = ⟨200, .ordersList (some (sliceToList (ordersOf db s)))⟩ := by
  cases hg : GetOrders db s with
  | error e =>
    exfalso
    unfold GetOrders at hg
    split at hg <;> simp at hg
  | ok r =>
    unfold getOrders
    rw [h]
    dsimp only
    rw [hg]
    cases r with
    | none => simp [ordersOf, hg, sliceToList]
    | some l => simp [ordersOf, hg, sliceToList]

/-- C10 witness: the empty repository with no status query: the storage slice
is nil and the handler responds 200 with an empty (non-null) orders list. -/
theorem getOrders_never_null_witness :
    getOrders [] "" = ⟨200, .ordersList (some [])⟩ :=
  (getOrders_never_null [] "" (-1) (by decide)).trans (by decide)
